import Mathlib

/-!
# Formal model of the self-updating knowledge-assistant pipeline

A shallow embedding of the core learning pipeline of the repository:

* `brain/db.py` — the known/unknown word store (`add_word`, `is_known`);
* `services/ai_providers.py` — the provider fallback chain
  (`generate_text`, `groq_generate_text`);
* `services/researcher.py` — the web-research fallback chain
  (`quick_research`);
* `logic/advanced_learning.py` — the rate-limited quick learning cycle
  (`should_run_learning`, `quick_learn_unknowns`);
* `brain/knowledge_base.py` — the answer synthesizer and concept
  extraction (`generate_response_from_knowledge`,
  `detect_and_log_unknown_words`);
* `background_learner.py` — the refinement and recovery background
  tasks (`_run_refinement_task`, `_run_recovery_task`).

External collaborators (Firestore, spaCy, the Groq/Gemini APIs, the web
search backends) are modelled as oracles: every call a Python function
makes to a collaborator is represented by an input that supplies that
call's outcome, either a returned value or a raised exception.
Timestamps (`time.time()`, `datetime.now()`) are modelled as rationals
supplied explicitly.
-/

namespace MLSpec

/-- Outcome of a Python call: either a normal return value or a raised
exception, recorded as exception class name and message. -/
inductive PyResult (α : Type) where
  | ok : α → PyResult α
  | exn : String → String → PyResult α
deriving DecidableEq

/-- Python truthiness of a `str`-or-`None` value: `None` and the empty
string are falsy, every other string is truthy. -/
def pyTruthy : Option String → Bool
  | none => false
  | some s => !s.isEmpty

/-- Python's `str.strip()`: remove leading and trailing whitespace. -/
def pyStrip (s : String) : String :=
  ((s.data.dropWhile Char.isWhitespace).reverse.dropWhile Char.isWhitespace).reverse.asString

/-! ## Firestore-style document collections

`brain/db.py` stores words in two Firestore collections keyed by the
word itself.  `document(w).set(data)` creates or overwrites the document
with key `w`; `document(w).delete()` removes it.  We model a collection
as an association list with at most one binding per key. -/

/-- `document(k).set(v)`: overwrite the binding for `k` in place, or
append a new one. -/
def setDoc {β : Type} : List (String × β) → String → β → List (String × β)
  | [], k, v => [(k, v)]
  | (k0, v0) :: rest, k, v =>
    if k0 = k then (k, v) :: rest else (k0, v0) :: setDoc rest k v

/-- `document(k).delete()`: remove any binding for `k`. -/
def delDoc {β : Type} (l : List (String × β)) (k : String) : List (String × β) :=
  l.filter (fun kv => kv.1 ≠ k)

/-- `document(k).get().exists`: is there a binding for `k`? -/
def hasDoc {β : Type} (l : List (String × β)) (k : String) : Bool :=
  l.any (fun kv => kv.1 = k)

/-- A document of the `known_words` collection, as written by
`add_word` in `brain/db.py`: `explanation`, `learned_at`, and the
`category` field which is present only when a truthy category string was
passed. -/
structure KnownRec where
  explanation : String
  learned_at : ℚ
  category : Option String
deriving DecidableEq

/-- The word store backing `brain/db.py`: the `known_words` collection
and the `unknown_words` collection (whose documents hold only an
`added_at` timestamp). -/
structure Store where
  known : List (String × KnownRec)
  unknown : List (String × ℚ)
deriving DecidableEq

/-- `brain/db.py`'s `add_word(word, explanation, is_known, category)`,
with the wall clock (`datetime.utcnow()`) passed explicitly as `now`.
With `is_known=True` it writes the known-words document (including the
`category` field only if `category` is truthy) and then deletes the
word's unknown-words document if it exists; with `is_known=False` it
writes an unknown-words document.  The Firestore operations themselves
are assumed to succeed here; `add_word`'s surrounding `try/except` —
which swallows a failing Firestore call — is modelled at the call sites
via an explicit persistence-success oracle. -/
def add_word (word explanation : String) (is_known : Bool)
    (category : Option String) (now : ℚ) (s : Store) : Store :=
  if is_known then
    let data : KnownRec :=
      ⟨explanation, now, if pyTruthy category then category else none⟩
    let s1 : Store := { s with known := setDoc s.known word data }
    if hasDoc s1.unknown word then
      { s1 with unknown := delDoc s1.unknown word }
    else s1
  else
    { s with unknown := setDoc s.unknown word now }

/-- `brain/db.py`'s `is_known(word)` (with a reachable database). -/
def is_known (word : String) (s : Store) : Bool :=
  hasDoc s.known word

/-! ### Concrete stores used to settle claim C5 -/

/-- The empty store. -/
def emptyStore : Store := ⟨[], []⟩

/-- Promote the word `x` into the known set at time 0. -/
def c5_store1 : Store := add_word "x" "a definition" true none 0 emptyStore

/-- Then register the same word `x` as unknown at time 1, exactly as
`detect_and_log_unknown_words` does for every extracted candidate
(`add_word(cand, explanation="", is_known=False)`, with no check that
the candidate is already known). -/
def c5_store2 : Store := add_word "x" "" false none 1 c5_store1

/-- Look a document up by key. -/
def getDoc {β : Type} : List (String × β) → String → Option β
  | [], _ => none
  | (k0, v0) :: rest, k => if k0 = k then some v0 else getDoc rest k

/-! ## The provider fallback chain (`services/ai_providers.py`)

`generate_text(prompt, prefer)` walks the preference list; for
`'gemini'` and `'groq'` it calls the corresponding module-level helper
(`_try_gemini` / `_try_groq`), each of which returns the generated text
or `None` (both catch their own exceptions and return `None` on any
failure or when unconfigured).  A truthy result is returned immediately,
tagged with the provider name.  For `'ignis'` the code calls
`_try_ignis(prompt)` — but `_try_ignis` is defined *inside* the body of
`_try_groq`, so the name does not exist at module scope and the call
raises `NameError` before any provider is attempted.  Provider strings
matching no branch are silently skipped.  If the loop finishes with no
success, a `RuntimeError` ("All LLM providers are unavailable or
failed.") is raised. -/

/-- The outcomes of `_try_gemini(prompt)` and `_try_groq(prompt)`:
generated text, or `None` on any failure (these helpers never raise). -/
structure ProviderEnv where
  tryGemini : String → Option String
  tryGroq : String → Option String

/-- Result of a `generate_text` call: a tagged success, the
all-providers-failed `RuntimeError`, or an unbound-name `NameError`. -/
inductive GenResult where
  | success (response provider : String)
  | allProvidersFailed
  | nameError (missing : String)
deriving DecidableEq

/-- The default preference order of `generate_text` in
`services/ai_providers.py`: `('ignis', 'gemini', 'groq')`. -/
def defaultPrefer : List String := ["ignis", "gemini", "groq"]

/-- `services/ai_providers.py`'s `generate_text(prompt, prefer)`.
Returns the call result together with the list of provider helpers that
were actually invoked, in invocation order. -/
def generate_text (env : ProviderEnv) (prompt : String) :
    List String → GenResult × List String
  | [] => (.allProvidersFailed, [])
  | p :: rest =>
    if p = "gemini" then
      let out := env.tryGemini prompt
      if pyTruthy out then (.success (out.getD "") "Gemini", ["gemini"])
      else
        let r := generate_text env prompt rest
        (r.1, "gemini" :: r.2)
    else if p = "groq" then
      let out := env.tryGroq prompt
      if pyTruthy out then (.success (out.getD "") "Groq", ["groq"])
      else
        let r := generate_text env prompt rest
        (r.1, "groq" :: r.2)
    else if p = "ignis" then
      (.nameError "_try_ignis", [])
    else
      generate_text env prompt rest

/-- Environment for claim C1's scenario: Gemini fails (returns `None`),
Groq succeeds. -/
def c1_env : ProviderEnv := ⟨fun _ => none, fun _ => some "a groq answer"⟩

/-! ## `groq_generate_text` (`services/ai_providers.py`)

Takes whether the Groq client is configured and the outcome of the API
call `groq_client.chat.completions.create(...)` followed by
`resp.choices[0].message.content` (a string, or `None`).  The function
never raises: when unconfigured it returns the literal sentence
"Groq provider is not available.", and when the API call raises it
returns "I am having trouble accessing my knowledge base at the
moment.". -/
def groq_generate_text (configured : Bool) (api : PyResult (Option String)) :
    Option String :=
  if !configured then some "Groq provider is not available."
  else
    match api with
    | .ok content => content
    | .exn _ _ => some "I am having trouble accessing my knowledge base at the moment."

/-! ## The quick learning cycle (`logic/advanced_learning.py`) -/

/-- The fixed quick-learning interval (60 seconds). -/
def LEARNING_INTERVAL : ℚ := 60

/-- `should_run_learning()`: true when there is no recorded last run, or
when at least `LEARNING_INTERVAL` seconds have elapsed since it. -/
def should_run_learning (lastRun : Option ℚ) (now : ℚ) : Bool :=
  match lastRun with
  | none => true
  | some t => decide (LEARNING_INTERVAL ≤ now - t)

/-- A structured per-word error dict
(`"word"` / `"type"` / `"message"`), or the plain string
`f"{word}: No explanation available"` appended when no explanation
could be obtained. -/
inductive ErrorEntry where
  | structured (word typ msg : String)
  | plain (s : String)
deriving DecidableEq

/-- The result dict of `quick_learn_unknowns` (the `timestamp` field is
omitted; `reason` is present only on the skipped path). -/
structure LearnResults where
  status : String
  learned_count : Nat
  errors : List ErrorEntry
  reason : Option String
deriving DecidableEq

/-- The result dict as initialised at the start of a non-skipped run. -/
def startResults : LearnResults :=
  { status := "started", learned_count := 0, errors := [], reason := none }

/-- Per-call oracles for one run of the quick learning cycle: the
pending words returned by `get_unknown_words()` (document ids in stream
order), and for each word the outcomes of the calls the loop body makes:
`quick_research(word)`; the Groq synthesis fallback
(`groq_generate_text` on the explain prompt); the Groq categorization
call; whether the Firestore writes inside `add_word` succeed (`add_word`
itself swallows their failure); and `find_and_map_relationships(word)`
(wrapped in its own `try/except`, so its outcome is irrelevant). -/
structure LearnEnv where
  pending : List String
  research : String → PyResult String
  synth : String → PyResult (Option String)
  categorize : String → PyResult (Option String)
  persist_ok : String → Bool
  mapRel : String → PyResult Unit

/-- The value of `explanation` after the research step and the optional
Groq synthesis fallback: when `quick_research` returned a truthy string
it is kept; otherwise the synthesis result replaces it, except that a
raising synthesis call is swallowed by its own `try/except`, leaving
`explanation` at the (falsy) researched value. -/
def wordExplanation (env : LearnEnv) (word researched : String) : Option String :=
  if pyTruthy (some researched) then some researched
  else
    match env.synth word with
    | .ok v => v
    | .exn _ _ => some researched

/-- One iteration of the `for word_doc in unknown_words[:3]` loop of
`quick_learn_unknowns`, acting on the accumulated results dict and the
word store.  The whole body is wrapped in `try/except Exception`, which
appends the structured error dict and moves on; the synthesis fallback
is additionally wrapped in its own `try/except` that leaves
`explanation` unchanged; `category.strip()` raises `AttributeError`
when the Groq call returned `None`. -/
def processWord (env : LearnEnv) (now : ℚ) (acc : LearnResults × Store)
    (word : String) : LearnResults × Store :=
  let results := acc.1
  let store := acc.2
  match env.research word with
  | .exn ty msg =>
      ({ results with errors := results.errors ++ [.structured word ty msg] }, store)
  | .ok researched =>
      let explanation : Option String := wordExplanation env word researched
      if !pyTruthy explanation then
        ({ results with
            errors := results.errors ++ [.plain (word ++ ": No explanation available")] },
          store)
      else
        match env.categorize ((explanation.getD "").take 500) with
        | .exn ty msg =>
            ({ results with errors := results.errors ++ [.structured word ty msg] }, store)
        | .ok none =>
            ({ results with
                errors := results.errors ++
                  [.structured word "AttributeError"
                    "NoneType object has no attribute strip"] },
              store)
        | .ok (some category) =>
            let store2 :=
              if env.persist_ok word then
                add_word word (explanation.getD "") true (some (pyStrip category)) now store
              else store
            ({ results with learned_count := results.learned_count + 1 }, store2)

/-- The per-word loop of `quick_learn_unknowns` over the first three
pending words. -/
def quick_learn_loop (env : LearnEnv) (now : ℚ) (acc : LearnResults × Store) :
    List String → LearnResults × Store
  | [] => acc
  | w :: ws => quick_learn_loop env now (processWord env now acc w) ws

/-- `quick_learn_unknowns()`, with the module-global
`_last_learning_run` timestamp and the word store passed and returned
explicitly, and the wall clock passed as `now`.  Returns the results
dict, the new `_last_learning_run`, and the new store. -/
def quick_learn_unknowns (lastRun : Option ℚ) (now : ℚ) (env : LearnEnv)
    (store : Store) : LearnResults × Option ℚ × Store :=
  if !should_run_learning lastRun now then
    ({ status := "skipped", learned_count := 0, errors := [],
       reason := some "Not enough time has passed" }, lastRun, store)
  else
    if env.pending.isEmpty then
      ({ status := "no_unknowns", learned_count := 0, errors := [], reason := none },
        some now, store)
    else
      let run := quick_learn_loop env now (startResults, store) (env.pending.take 3)
      ({ run.1 with status := "completed" }, some now, run.2)

/-- The per-word error contribution dictated by the loop body (used to
state batch isolation: the cycle's error list is the concatenation of
these, one segment per processed word). -/
def wordErrors (env : LearnEnv) (word : String) : List ErrorEntry :=
  match env.research word with
  | .exn ty msg => [.structured word ty msg]
  | .ok researched =>
      let explanation : Option String := wordExplanation env word researched
      if !pyTruthy explanation then [.plain (word ++ ": No explanation available")]
      else
        match env.categorize ((explanation.getD "").take 500) with
        | .exn ty msg => [.structured word ty msg]
        | .ok none =>
            [.structured word "AttributeError" "NoneType object has no attribute strip"]
        | .ok (some _) => []

/-- Whether the loop body reaches the end for this word (counts it as
learned). -/
def wordLearned (env : LearnEnv) (word : String) : Bool :=
  (wordErrors env word).isEmpty

/-- Store holding the three pending concepts of claim C3's scenarios
(`unknown_words` documents for alpha, beta, gamma). -/
def c3_store0 : Store := ⟨[], [("alpha", 0), ("beta", 0), ("gamma", 0)]⟩

/-- Environment for claim C3's amended scenario: three pending
concepts, where research raises for the second and succeeds for the
first and third. -/
def c3_env : LearnEnv where
  pending := ["alpha", "beta", "gamma"]
  research := fun w =>
    if w = "beta" then .exn "RuntimeError" "search backend exploded"
    else .ok "a substantial explanation of the concept"
  synth := fun _ => .ok none
  categorize := fun _ => .ok (some "Factual")
  persist_ok := fun _ => true
  mapRel := fun _ => .ok ()

/-- Environment for claim C3's counterexample: three pending concepts
where, for the second, web research returns an empty string and the
Groq synthesis fallback returns `None`, so no explanation is
available. -/
def c3_cex_env : LearnEnv where
  pending := ["alpha", "beta", "gamma"]
  research := fun w =>
    if w = "beta" then .ok "" else .ok "a substantial explanation of the concept"
  synth := fun _ => .ok none
  categorize := fun _ => .ok (some "Factual")
  persist_ok := fun _ => true
  mapRel := fun _ => .ok ()

/-- Environment for claim C10's consequence: one pending concept whose
research succeeds, while the categorization call is
`groq_generate_text` with the Groq client unconfigured. -/
def c10_env : LearnEnv where
  pending := ["gradient"]
  research := fun _ => .ok "an explanation of gradients"
  synth := fun _ => .ok none
  categorize := fun _ => .ok (groq_generate_text false (.ok none))
  persist_ok := fun _ => true
  mapRel := fun _ => .ok ()

/-! ## The answer synthesizer (`brain/knowledge_base.py`)

`generate_response_from_knowledge(prompt_text)` queries the vector
index for the single nearest concept.  The score is a distance (lower
is better, defaulting to 1.0 when the entry has no score); strictly
below the 0.6 threshold the stored document is returned verbatim,
otherwise (including when no concept is returned) a fixed
"not enough information" message is returned and
`detect_and_log_unknown_words(prompt_text)` is invoked as a side
effect.  The side effect is abstracted as a state transformer. -/

/-- One entry of the `query_similar(prompt_text, n_results=1)` result:
a dict with an optional `score` (distance) and an optional
`document`. -/
structure TopConcept where
  score : Option ℚ
  document : Option String
deriving DecidableEq

/-- The response dict built by `generate_response_from_knowledge`. -/
structure ResponseData where
  raw_knowledge : Option (List TopConcept)
  synthesized_answer : Option String
  prompt : String
deriving DecidableEq

/-- The initial answer, kept when the core services are offline. -/
def offline_message : String :=
  "I am currently unable to process this request as my core services are offline."

/-- The fixed weak-match / no-match answer. -/
def unknown_message : String :=
  "I don\u0027t have enough information to answer that question. I will try to learn about it."

/-- `generate_response_from_knowledge(prompt_text)`, parameterized by
the health-check outcome, the vector query, and the
`detect_and_log_unknown_words` side effect on a state of type `δ`.
Returns the response dict and the state after any side effect. -/
def generate_response_from_knowledge {δ : Type} (healthy : Bool)
    (query_similar : String → List TopConcept)
    (detect : String → δ → δ) (prompt_text : String) (st : δ) :
    ResponseData × δ :=
  let response0 : ResponseData := ⟨none, some offline_message, prompt_text⟩
  if !healthy then (response0, st)
  else
    match query_similar prompt_text with
    | top_concept :: _ =>
      let similarity_score := top_concept.score.getD 1
      if similarity_score < 0.6 then
        ({ response0 with
            synthesized_answer := top_concept.document,
            raw_knowledge := some [top_concept] }, st)
      else
        ({ response0 with synthesized_answer := some unknown_message },
          detect prompt_text st)
    | [] =>
        ({ response0 with synthesized_answer := some unknown_message },
          detect prompt_text st)

/-- A stored concept at distance 0.59 from every prompt. -/
def c4_query59 : String → List TopConcept :=
  fun _ => [⟨some (59 / 100), some "the stored document text"⟩]

/-- A stored concept at distance 0.60 from every prompt. -/
def c4_query60 : String → List TopConcept :=
  fun _ => [⟨some (60 / 100), some "the stored document text"⟩]


/-! ## Concept extraction (`brain/knowledge_base.py`)

`detect_and_log_unknown_words(prompt)` extracts candidate unknown
concepts.  With the spaCy pipeline available it builds, from the parsed
document, lemmatized lowercased noun-chunk phrases and single
noun/proper-noun token lemmas, filtered by a minimum length of 3 and a
static stop-list; without it, a plain whitespace tokenizer with a
length-of-at-least-4 filter and the same stop-list is used.  Finally,
for every retained multi-word phrase, the constituent
whitespace-split tokens are discarded from the candidate set.  The
spaCy pipeline is an external collaborator, modelled as an oracle
document; the candidate set is modelled as a list read up to
membership. -/

/-- The Python method `str.lower()` (ASCII model). -/
def pyLower (s : String) : String := (s.data.map Char.toLower).asString

/-- The Python expression of joining with a space, `" ".join(l)`. -/
def joinSpace : List String → String
  | [] => ""
  | [s] => s
  | s :: rest => s ++ " " ++ joinSpace rest

/-- Helper for `pySplitWs`: walk the characters, accumulating the
current word (reversed). -/
def pySplitWsAux : List Char → List Char → List String
  | [], acc => if acc.isEmpty then [] else [acc.reverse.asString]
  | c :: cs, acc =>
    if c.isWhitespace then
      if acc.isEmpty then pySplitWsAux cs []
      else acc.reverse.asString :: pySplitWsAux cs []
    else pySplitWsAux cs (c :: acc)

/-- The Python method `str.split()` with no separator: split on runs of
whitespace, dropping empty pieces. -/
def pySplitWs (s : String) : List String := pySplitWsAux s.data []

/-- The Python test `" " in s`: does the string contain a space? -/
def hasSpace (s : String) : Bool := s.data.any (fun c => c = ' ')

/-- A spaCy token as consumed by `detect_and_log_unknown_words`:
its lemma (`tok.lemma_`), coarse part of speech (`tok.pos_`), and the
`is_stop` / `is_alpha` flags. -/
structure SpacyToken where
  lemma_ : String
  pos_ : String
  is_stop : Bool
  is_alpha : Bool
deriving DecidableEq

/-- A spaCy document: the token stream and the noun chunks (each chunk
is a list of tokens). -/
structure SpacyDoc where
  tokens : List SpacyToken
  noun_chunks : List (List SpacyToken)
deriving DecidableEq

/-- The static stop-list of `detect_and_log_unknown_words`, verbatim
(the Python set literal contains some repeated words; repetition does
not change membership). -/
def stopset : List String :=
  ["what", "the", "is", "a", "an", "i", "you", "it", "this", "that", "does",
   "do", "how", "why", "be", "have", "make", "take", "get", "go", "know",
   "think", "see", "come", "come", "use", "find", "give", "tell", "work",
   "call", "ask", "need", "feel", "become", "leave", "put", "mean", "keep",
   "let", "begin", "seem", "help", "talk", "turn", "start", "show", "hear",
   "act", "show", "move", "like", "live", "believe", "hold", "bring",
   "happen", "write", "provide", "sit", "stand", "lose", "pay", "meet",
   "include", "continue", "set", "learn", "change", "lead", "understand",
   "watch", "follow", "stop", "create", "speak", "read", "allow", "add",
   "spend", "grow", "open", "walk", "win", "offer", "remember", "love",
   "consider", "appear", "buy", "wait", "serve", "die", "send", "expect",
   "build", "stay", "fall", "cut", "reach", "kill", "remain", "suggest",
   "raise", "pass", "sell", "require", "report", "decide", "pull", "explain",
   "develop", "carry", "break", "receive", "agree", "support", "hit",
   "produce", "eat", "cover", "catch", "draw", "choose", "strike", "manage",
   "shake", "drink", "choose", "share", "spread", "prepare", "speak", "try",
   "release", "search", "charge", "race", "climb", "rush", "mix", "mark",
   "fight", "fit", "establish", "cook", "jump", "laugh", "apply", "spend",
   "score", "operate", "divide", "sign", "hang", "rest", "serve", "sing",
   "arrive", "return", "visit", "teach", "earn", "travel", "fly", "damage",
   "solve", "wrestle", "swim", "teach", "hunt", "achieve", "establish",
   "throw", "destroy", "dance", "suffer", "start", "spend", "trade", "slip",
   "protect", "represent", "join", "drive", "repair", "master", "suffer",
   "behave", "command", "ring", "pray", "notice", "reflect", "blame",
   "regret", "admit", "suffer", "extend", "waste", "supply", "retire",
   "employ", "escape", "grant", "resolve", "prove", "install", "engage",
   "generate", "inherit", "adopt", "succeed", "admit", "submit", "embrace",
   "suffer"]

/-- The candidate phrase contributed by one noun chunk: the lemmatized,
lowercased, stripped join of its non-stop alphabetic tokens, retained
when non-empty, at least 3 characters long and not in the stop-list. -/
def chunkCandidate (chunk : List SpacyToken) : Option String :=
  let lemmas := (chunk.filter (fun t => !t.is_stop && t.is_alpha)).map
    (fun t => pyLower t.lemma_)
  if lemmas.isEmpty then none
  else
    let phrase := pyStrip (joinSpace lemmas)
    if 3 <= phrase.length ∧ phrase ∉ stopset then some phrase else none

/-- The candidate contributed by one token: its lowercased lemma, when
the token is a noun or proper noun, non-stop, alphabetic, and the lemma
is at least 3 characters long and not in the stop-list. -/
def tokenCandidate (tok : SpacyToken) : Option String :=
  if (tok.pos_ = "NOUN" ∨ tok.pos_ = "PROPN") ∧ !tok.is_stop ∧ tok.is_alpha then
    let lem := pyLower tok.lemma_
    if 3 <= lem.length ∧ lem ∉ stopset then some lem else none
  else none

/-- The candidate set gathered on the spaCy path (noun-chunk phrases,
then single-token lemmas). -/
def rawCandidates (doc : SpacyDoc) : List String :=
  doc.noun_chunks.filterMap chunkCandidate ++ doc.tokens.filterMap tokenCandidate

/-- The word contributed by one whitespace-split part on the fallback
path: its lowercased alphabetic characters, when at least 4 long and
not in the stop-list. -/
def fallbackCandidate (part : String) : Option String :=
  let word := ((pyLower part).data.filter Char.isAlpha).asString
  if 4 <= word.length ∧ word ∉ stopset then some word else none

/-- The candidate set gathered on the fallback (no spaCy) path. -/
def fallbackCandidates (prompt : String) : List String :=
  (pySplitWs prompt).filterMap fallbackCandidate

/-- The candidate set before deduplication: the spaCy path when the
pipeline is available, the whitespace fallback otherwise. -/
def candidatesOf (nlp : Option SpacyDoc) (prompt : String) : List String :=
  match nlp with
  | some doc => rawCandidates doc
  | none => fallbackCandidates prompt

/-- `detect_and_log_unknown_words(prompt)` up to its persistence side
effects: the deduplicated candidate set.  For every multi-word phrase in
the candidate set, its whitespace-split tokens are
discarded. -/
def detect_and_log_unknown_words (nlp : Option SpacyDoc) (prompt : String) :
    List String :=
  let cands := candidatesOf nlp prompt
  cands.filter (fun c =>
    !(cands.any (fun p => hasSpace p && (pySplitWs p).contains c)))

/-- A spaCy parse of the prompt "the neural network model": one noun
chunk spanning the whole prompt; "the" is a stop word, "neural" an
adjective, "network" and "model" nouns. -/
def c6_doc : SpacyDoc :=
  ⟨[⟨"the", "DET", true, true⟩, ⟨"neural", "ADJ", false, true⟩,
    ⟨"network", "NOUN", false, true⟩, ⟨"model", "NOUN", false, true⟩],
   [[⟨"the", "DET", true, true⟩, ⟨"neural", "ADJ", false, true⟩,
     ⟨"network", "NOUN", false, true⟩, ⟨"model", "NOUN", false, true⟩]]⟩

/-! ## The research fallback chain (`services/researcher.py`)

`quick_research(concept)` builds the query "what is {concept}" and
walks the fixed list of search methods — DuckDuckGo, Google CSE, Groq —
inside a per-method `try/except continue`; each method itself returns a
string (possibly empty) and catches its own errors, but the loop guards
against raising methods anyway.  The first result that is truthy with
stripped length strictly greater than 50 is returned at once; with no
such result the function returns the empty string.  It never raises. -/

/-- Per-call oracles for the three search backends, applied to the
query string. -/
structure ResearchEnv where
  ddg : String → PyResult String
  google : String → PyResult String
  groq : String → PyResult String

/-- The `for method_name, method_func in search_methods` loop of
`quick_research`: returns the result and the list of methods actually
attempted, in order. -/
def research_loop : List (String × PyResult String) → String × List String
  | [] => ("", [])
  | (name, r) :: rest =>
    match r with
    | .exn _ _ =>
      let t := research_loop rest
      (t.1, name :: t.2)
    | .ok result =>
      if pyTruthy (some result) ∧ 50 < (pyStrip result).length then (result, [name])
      else
        let t := research_loop rest
        (t.1, name :: t.2)

/-- `services/researcher.py` `quick_research(concept)`. -/
def quick_research (env : ResearchEnv) (concept : String) : String × List String :=
  let query := "what is " ++ concept
  research_loop
    [("DuckDuckGo", env.ddg query), ("Google CSE", env.google query),
     ("Groq", env.groq query)]

/-- Classifier used to state the short-circuit property: the substantial
result carried by a backend outcome, if any (the call returned, the
result is truthy, and its stripped length exceeds 50). -/
def substantial : PyResult String → Option String
  | .exn _ _ => none
  | .ok s => if pyTruthy (some s) ∧ 50 < (pyStrip s).length then some s else none

/-- Environment for claim C7's witness: DuckDuckGo returns a short
string, Google CSE raises, Groq returns a substantial result. -/
def c7_env : ResearchEnv where
  ddg := fun _ => .ok "too short"
  google := fun _ => .exn "HTTPError" "503 from googleapis"
  groq := fun _ => .ok "a sufficiently long and substantial explanation of the concept at hand"

/-! ## The recovery task (`background_learner.py`)

`_run_recovery_task(task)` performs up to `max_attempts` attempts; each
attempt sets `task["attempts"]`, calls `search_web_and_learn` and — when
that is truthy — `regenerate_response_with_learning`; when the
regenerated answer is truthy and differs from the failed response the
task stops at once with status "recovered"; otherwise the attempt ends
with `time.sleep(5)` and the loop continues, finishing with status
"failed" after the final sleep.  An exception inside an attempt is
caught and treated as an unsuccessful attempt. -/

/-- Per-attempt oracles (indexed by the 0-based attempt number): the
outcome of `search_web_and_learn(query)` and of
`regenerate_response_with_learning(query, failed_response)` (a string
or `None`). -/
structure RecoveryEnv where
  search : Nat → PyResult String
  regen : Nat → PyResult (Option String)

/-- The recovery task dict. -/
structure RecoveryTask where
  query : String
  failed_response : String
  attempts : Nat
  max_attempts : Nat
  status : String
  improved_response : Option String
deriving DecidableEq

/-- Observable events of a recovery run: the start of the n-th attempt
(1-based, as logged) and each `time.sleep(5)` backoff. -/
inductive RecEvent where
  | attempt (n : Nat)
  | sleep (seconds : Nat)
deriving DecidableEq

/-- The improved answer produced by the k-th attempt, if any: web
search truthy, regeneration truthy and different from the failed
response; `none` when any call raises (the attempt body swallows the
exception). -/
def attemptResult (env : RecoveryEnv) (failed : String) (attempt : Nat) :
    Option String :=
  match env.search attempt with
  | .exn _ _ => none
  | .ok web =>
    if pyTruthy (some web) then
      match env.regen attempt with
      | .exn _ _ => none
      | .ok none => none
      | .ok (some improved) =>
        if pyTruthy (some improved) ∧ improved ≠ failed then some improved else none
    else none

/-- The `for attempt in range(task["max_attempts"])` loop of
`_run_recovery_task`: `attempt` is the 0-based loop index, `remaining`
the number of iterations left.  Returns the final task dict and the
event trace. -/
def recovery_loop (env : RecoveryEnv) :
    Nat → Nat → RecoveryTask → RecoveryTask × List RecEvent
  | _, 0, t => ({ t with status := "failed" }, [])
  | attempt, remaining + 1, t =>
    let t1 := { t with attempts := attempt + 1 }
    match attemptResult env t.failed_response attempt with
    | some improved =>
      ({ t1 with improved_response := some improved, status := "recovered" },
        [.attempt (attempt + 1)])
    | none =>
      let r := recovery_loop env (attempt + 1) remaining t1
      (r.1, .attempt (attempt + 1) :: .sleep 5 :: r.2)

/-- `_run_recovery_task(task)`. -/
def run_recovery_task (env : RecoveryEnv) (t : RecoveryTask) :
    RecoveryTask × List RecEvent :=
  recovery_loop env 0 t.max_attempts t

/-- The task dict built by `schedule_recovery_task(query,
failed_response, max_attempts)`. -/
def schedule_recovery_task (query failed : String) (max_attempts : Nat) :
    RecoveryTask :=
  ⟨query, failed, 0, max_attempts, "pending", none⟩

/-- Environment for claim C8's witness: web research comes back empty
on every attempt, so no attempt can succeed. -/
def c8_env : RecoveryEnv where
  search := fun _ => .ok ""
  regen := fun _ => .ok none

/-! ## The refinement task (`background_learner.py`)

`_run_refinement_task(topic)` loops while the topic is registered in
`_learning_tasks` (`clear_task` removes it).  On each wakeup, when the
wall clock has reached the topic's `_refinement_timers` entry, it runs
`refine_knowledge_entry`; on success it marks the task "refined" when
the result is truthy and reschedules the timer five minutes
(`REFINEMENT_INTERVAL = 300` seconds) ahead; on an unhandled exception
it sets the status to "error" and breaks out of the loop, never
running a refinement for the topic again.  Each wakeup is modelled as
one input (clock reading, topic presence, refinement outcome). -/

/-- The refinement interval: 300 seconds (5 minutes). -/
def REFINEMENT_INTERVAL : ℚ := 300

/-- One wakeup of the refinement loop: the `datetime.now()` reading,
whether the topic is still in `_learning_tasks`, and the outcome of
`refine_knowledge_entry` — the truthiness of its result, or a raised
exception — were it invoked at this wakeup. -/
structure RefInput where
  now : ℚ
  present : Bool
  refine : PyResult Bool

/-- The loop state: the topic's scheduled refinement time, the task
status, and whether the loop has terminated. -/
structure RefState where
  timer : ℚ
  status : String
  exited : Bool
deriving DecidableEq

/-- Observable refinement events: a refinement run performed at a given
time, or a refinement raising at a given time. -/
inductive RefEvent where
  | ran (t : ℚ)
  | errored (t : ℚ)
deriving DecidableEq

/-- One wakeup of `_run_refinement_task`. -/
def refinementStep (st : RefState) (inp : RefInput) : RefState × List RefEvent :=
  if st.exited then (st, [])
  else if !inp.present then ({ st with exited := true }, [])
  else if st.timer ≤ inp.now then
    match inp.refine with
    | .ok improved =>
      let st1 := if improved then { st with status := "refined" } else st
      ({ st1 with timer := inp.now + REFINEMENT_INTERVAL }, [.ran inp.now])
    | .exn _ _ => ({ st with status := "error", exited := true }, [.errored inp.now])
  else (st, [])

/-- The refinement loop over a sequence of wakeups. -/
def refinementRun (st : RefState) : List RefInput → RefState × List RefEvent
  | [] => (st, [])
  | inp :: rest =>
    let s := refinementStep st inp
    let r := refinementRun s.1 rest
    (r.1, s.2 ++ r.2)

/-- The times of the refinement runs in an event trace. -/
def ranTimes (evs : List RefEvent) : List ℚ :=
  evs.filterMap (fun e => match e with | .ran t => some t | .errored _ => none)

/-- An idle environment (no pending words), used to witness the
rate-limit gate. -/
def idle_env : LearnEnv where
  pending := []
  research := fun _ => .ok ""
  synth := fun _ => .ok none
  categorize := fun _ => .ok none
  persist_ok := fun _ => true
  mapRel := fun _ => .ok ()

end MLSpec

namespace MLSpec

/-! ## Helper lemmas about document collections -/

theorem hasDoc_setDoc_self {β : Type} (l : List (String × β)) (k : String) (v : β) :
    hasDoc (setDoc l k v) k = true := by
  induction l with
  | nil => simp [setDoc, hasDoc]
  | cons hd tl ih =>
    by_cases h : hd.1 = k
    · simp [setDoc, hasDoc, h]
    · simp only [setDoc, h]
      simp only [hasDoc, List.any_cons] at ih ⊢
      simp [h, ih]

theorem setDoc_setDoc_self {β : Type} (l : List (String × β)) (k : String) (v w : β) :
    setDoc (setDoc l k v) k w = setDoc l k w := by
  induction l with
  | nil => simp [setDoc]
  | cons hd tl ih =>
    by_cases h : hd.1 = k
    · simp [setDoc, h]
    · simp [setDoc, h, ih]

theorem hasDoc_delDoc_self {β : Type} (l : List (String × β)) (k : String) :
    hasDoc (delDoc l k) k = false := by
  simp only [hasDoc, delDoc]
  rw [List.any_eq_false]
  intro kv hkv
  have := List.of_mem_filter hkv
  simpa using this

theorem delDoc_of_not_hasDoc {β : Type} (l : List (String × β)) (k : String)
    (h : hasDoc l k = false) : delDoc l k = l := by
  induction l with
  | nil => rfl
  | cons hd tl ih =>
    simp only [hasDoc, List.any_cons, Bool.or_eq_false_iff] at h
    obtain ⟨h1, h2⟩ := h
    have hne : hd.1 ≠ k := by simpa using h1
    have ht : delDoc tl k = tl := ih h2
    simp only [delDoc] at ht ⊢
    rw [List.filter_cons, ht]
    simp [hne]

theorem store_eq_of_fields (a b : Store) (h1 : a.known = b.known)
    (h2 : a.unknown = b.unknown) : a = b := by
  cases a; cases b; cases h1; cases h2; rfl

/-! ## Lemmas about `add_word` promotions -/

theorem add_word_true_known (w e : String) (c : Option String) (t : ℚ) (s : Store) :
    (add_word w e true c t s).known
      = setDoc s.known w ⟨e, t, if pyTruthy c then c else none⟩ := by
  simp only [add_word]
  by_cases h : hasDoc s.unknown w = true <;> simp [h]

theorem add_word_true_unknown (w e : String) (c : Option String) (t : ℚ) (s : Store) :
    (add_word w e true c t s).unknown = delDoc s.unknown w := by
  simp only [add_word]
  by_cases h : hasDoc s.unknown w = true
  · simp [h]
  · simp only [Bool.not_eq_true] at h
    simp [h, delDoc_of_not_hasDoc _ _ h]

/-- C5 counterexample: promoting the word `x` to known and then
registering it again as unknown (exactly what
`detect_and_log_unknown_words` does for every extracted candidate)
leaves `x` a member of both the `known_words` and the `unknown_words`
collections, violating the claimed pending/known exclusivity
invariant. -/
theorem c5_exclusivity_counterexample :
    hasDoc c5_store2.known "x" = true ∧ hasDoc c5_store2.unknown "x" = true := by
  decide

/-- C5 amended: promotion (`add_word` with `is_known=True`) is
absorptive — a second promotion of the same concept with identical
fields overwrites the first, so the store ends in the same state as if
only the second call had happened (in particular two calls at the same
instant leave the same state as one); after a promotion the concept is
absent from the `unknown_words` (pending) collection and present in
`known_words`.  The global invariant that a concept belongs to at most
one of the two collections does NOT hold in general, because `add_word`
with `is_known=False` never removes the word from `known_words`
(see the counterexample). -/
theorem c5_amended_promotion (s : Store) (w e : String) (c : Option String)
    (t1 t2 : ℚ) :
    add_word w e true c t2 (add_word w e true c t1 s) = add_word w e true c t2 s
    ∧ hasDoc (add_word w e true c t1 s).unknown w = false
    ∧ hasDoc (add_word w e true c t1 s).known w = true := by
  refine ⟨?_, ?_, ?_⟩
  · apply store_eq_of_fields
    · rw [add_word_true_known, add_word_true_known, add_word_true_known,
        setDoc_setDoc_self]
    · rw [add_word_true_unknown, add_word_true_unknown, add_word_true_unknown]
      have h : hasDoc (delDoc s.unknown w) w = false := hasDoc_delDoc_self _ _
      rw [delDoc_of_not_hasDoc _ _ h]
  · rw [add_word_true_unknown]
    exact hasDoc_delDoc_self _ _
  · rw [add_word_true_known]
    exact hasDoc_setDoc_self _ _ _

/-- C1: under the default preference order `('ignis', 'gemini',
'groq')`, with Gemini failing and Groq able to succeed, `generate_text`
raises `NameError` for the unbound module-level name `_try_ignis`
without attempting any provider — instead of attempting the providers
in order and returning Groq's answer tagged `provider=Groq`, which is
exactly what the same call does once `'ignis'` is removed from the
order (second conjunct). -/
theorem c1_default_order_raises_name_error :
    generate_text c1_env "hello" defaultPrefer = (.nameError "_try_ignis", [])
    ∧ generate_text c1_env "hello" ["gemini", "groq"]
      = (.success "a groq answer" "Groq", ["gemini", "groq"]) := by
  constructor <;> rfl

/-- C2: with a recorded last run at `t0`, a call at `t1` with
`t1 - t0 < 60` is a no-op returning the skipped dict, leaving both the
shared last-run timestamp and the store untouched; once the 60-second
interval has elapsed (`60 ≤ t1 - t0`) the call runs (its status is not
"skipped") and overwrites the shared last-run timestamp with `t1`. -/
theorem c2_rate_limit_gate (t0 t1 : ℚ) (env : LearnEnv) (store : Store) :
    (t1 - t0 < 60 →
      quick_learn_unknowns (some t0) t1 env store
        = ({ status := "skipped", learned_count := 0, errors := [],
             reason := some "Not enough time has passed" }, some t0, store))
    ∧ (60 ≤ t1 - t0 →
      (quick_learn_unknowns (some t0) t1 env store).1.status ≠ "skipped"
      ∧ (quick_learn_unknowns (some t0) t1 env store).2.1 = some t1) := by
  constructor
  · intro h
    have hb : should_run_learning (some t0) t1 = false := by
      simp only [should_run_learning, LEARNING_INTERVAL, decide_eq_false_iff_not]
      linarith
    simp [quick_learn_unknowns, hb]
  · intro h
    have hb : should_run_learning (some t0) t1 = true := by
      simp only [should_run_learning, LEARNING_INTERVAL, decide_eq_true_eq]
      linarith
    by_cases hp : env.pending.isEmpty
    · simp [quick_learn_unknowns, hb, hp]
    · simp [quick_learn_unknowns, hb, hp]

/-- C2 witness: at `t0 = 0`, a second call at `t1 = 59` is skipped and
leaves timestamp and store unchanged; a call at `t1 = 60` runs and
updates the timestamp. -/
theorem c2_rate_limit_gate_witness :
    quick_learn_unknowns (some 0) 59 idle_env emptyStore
      = ({ status := "skipped", learned_count := 0, errors := [],
           reason := some "Not enough time has passed" }, some 0, emptyStore)
    ∧ (quick_learn_unknowns (some 0) 60 idle_env emptyStore).1.status ≠ "skipped"
    ∧ (quick_learn_unknowns (some 0) 60 idle_env emptyStore).2.1 = some 60 :=
  ⟨(c2_rate_limit_gate 0 59 idle_env emptyStore).1 (by norm_num),
   (c2_rate_limit_gate 0 60 idle_env emptyStore).2 (by norm_num)⟩

/-! ## Lemmas about the quick-learning loop body -/

theorem processWord_errors (env : LearnEnv) (now : ℚ) (res : LearnResults)
    (store : Store) (w : String) :
    (processWord env now (res, store) w).1.errors = res.errors ++ wordErrors env w := by
  cases hr : env.research w with
  | exn ty msg => simp [processWord, wordErrors, hr]
  | ok researched =>
    cases ht : pyTruthy (wordExplanation env w researched) with
    | false => simp [processWord, wordErrors, hr, ht]
    | true =>
      cases hc : env.categorize (((wordExplanation env w researched).getD "").take 500) with
      | exn ty msg => simp [processWord, wordErrors, hr, ht, hc]
      | ok copt => cases copt <;> simp [processWord, wordErrors, hr, ht, hc]

theorem processWord_learned_count (env : LearnEnv) (now : ℚ) (res : LearnResults)
    (store : Store) (w : String) :
    (processWord env now (res, store) w).1.learned_count
      = res.learned_count + (if wordLearned env w then 1 else 0) := by
  cases hr : env.research w with
  | exn ty msg => simp [processWord, wordErrors, wordLearned, hr]
  | ok researched =>
    cases ht : pyTruthy (wordExplanation env w researched) with
    | false => simp [processWord, wordErrors, wordLearned, hr, ht]
    | true =>
      cases hc : env.categorize (((wordExplanation env w researched).getD "").take 500) with
      | exn ty msg => simp [processWord, wordErrors, wordLearned, hr, ht, hc]
      | ok copt => cases copt <;> simp [processWord, wordErrors, wordLearned, hr, ht, hc]

theorem hasDoc_setDoc_mono {β : Type} (l : List (String × β)) (k k2 : String) (v : β)
    (h : hasDoc l k = true) : hasDoc (setDoc l k2 v) k = true := by
  induction l with
  | nil => simp [hasDoc] at h
  | cons hd tl ih =>
    simp only [hasDoc, List.any_cons, Bool.or_eq_true, decide_eq_true_eq] at h
    by_cases he : hd.1 = k2
    · have hsd : setDoc (hd :: tl) k2 v = (k2, v) :: tl := by
        cases hd; simp_all [setDoc]
      rw [hsd]
      simp only [hasDoc, List.any_cons, Bool.or_eq_true, decide_eq_true_eq]
      rcases h with h | h
      · rw [he] at h
        exact Or.inl h
      · exact Or.inr h
    · have hsd : setDoc (hd :: tl) k2 v = hd :: setDoc tl k2 v := by
        cases hd; simp_all [setDoc]
      rw [hsd]
      simp only [hasDoc, List.any_cons, Bool.or_eq_true, decide_eq_true_eq]
      rcases h with h | h
      · exact Or.inl h
      · exact Or.inr (ih h)

theorem hasDoc_add_word_known_mono (word e : String) (c : Option String) (t : ℚ)
    (s : Store) (x : String) (h : hasDoc s.known x = true) :
    hasDoc (add_word word e true c t s).known x = true := by
  rw [add_word_true_known]
  exact hasDoc_setDoc_mono _ _ _ _ h

theorem processWord_known_mono (env : LearnEnv) (now : ℚ) (res : LearnResults)
    (store : Store) (w x : String) (h : hasDoc store.known x = true) :
    hasDoc (processWord env now (res, store) w).2.known x = true := by
  cases hr : env.research w with
  | exn ty msg => simpa [processWord, hr] using h
  | ok researched =>
    cases ht : pyTruthy (wordExplanation env w researched) with
    | false => simpa [processWord, hr, ht] using h
    | true =>
      cases hc : env.categorize (((wordExplanation env w researched).getD "").take 500) with
      | exn ty msg => simpa [processWord, hr, ht, hc] using h
      | ok copt =>
        cases copt with
        | none => simpa [processWord, hr, ht, hc] using h
        | some cat =>
          simp only [processWord, hr, ht, hc]
          by_cases hp : env.persist_ok w = true
          · simpa [hp] using hasDoc_add_word_known_mono w _ _ now store x h
          · simp only [Bool.not_eq_true] at hp
            simpa [hp] using h

theorem processWord_promotes (env : LearnEnv) (now : ℚ) (res : LearnResults)
    (store : Store) (w : String) (hl : wordLearned env w = true)
    (hp : env.persist_ok w = true) :
    hasDoc (processWord env now (res, store) w).2.known w = true := by
  simp only [wordLearned] at hl
  cases hr : env.research w with
  | exn ty msg => simp [wordErrors, hr] at hl
  | ok researched =>
    cases ht : pyTruthy (wordExplanation env w researched) with
    | false => simp [wordErrors, hr, ht] at hl
    | true =>
      cases hc : env.categorize (((wordExplanation env w researched).getD "").take 500) with
      | exn ty msg => simp [wordErrors, hr, ht, hc] at hl
      | ok copt =>
        cases copt with
        | none => simp [wordErrors, hr, ht, hc] at hl
        | some cat =>
          have hkey : hasDoc (add_word w ((wordExplanation env w researched).getD "")
              true (some (pyStrip cat)) now store).known w = true := by
            rw [add_word_true_known]
            exact hasDoc_setDoc_self _ _ _
          simpa [processWord, hr, ht, hc, hp] using hkey

theorem quick_learn_loop_errors (env : LearnEnv) (now : ℚ) (ws : List String) :
    ∀ (res : LearnResults) (store : Store),
    (quick_learn_loop env now (res, store) ws).1.errors
      = res.errors ++ (ws.map (wordErrors env)).flatten := by
  induction ws with
  | nil => intro res store; simp [quick_learn_loop]
  | cons w ws ih =>
    intro res store
    simp only [quick_learn_loop]
    have hpair : processWord env now (res, store) w
        = ((processWord env now (res, store) w).1,
           (processWord env now (res, store) w).2) := rfl
    rw [hpair, ih, processWord_errors]
    simp [List.append_assoc]

theorem quick_learn_loop_learned_count (env : LearnEnv) (now : ℚ) (ws : List String) :
    ∀ (res : LearnResults) (store : Store),
    (quick_learn_loop env now (res, store) ws).1.learned_count
      = res.learned_count + (ws.filter (fun w => wordLearned env w)).length := by
  induction ws with
  | nil => intro res store; simp [quick_learn_loop]
  | cons w ws ih =>
    intro res store
    simp only [quick_learn_loop]
    have hpair : processWord env now (res, store) w
        = ((processWord env now (res, store) w).1,
           (processWord env now (res, store) w).2) := rfl
    rw [hpair, ih, processWord_learned_count]
    by_cases hl : wordLearned env w = true
    · simp [List.filter_cons, hl]
      omega
    · simp only [Bool.not_eq_true] at hl
      simp [List.filter_cons, hl]

theorem quick_learn_loop_known_mono (env : LearnEnv) (now : ℚ) (ws : List String) :
    ∀ (res : LearnResults) (store : Store) (x : String),
    hasDoc store.known x = true →
    hasDoc (quick_learn_loop env now (res, store) ws).2.known x = true := by
  induction ws with
  | nil => intro res store x h; simpa [quick_learn_loop] using h
  | cons w ws ih =>
    intro res store x h
    simp only [quick_learn_loop]
    have hpair : processWord env now (res, store) w
        = ((processWord env now (res, store) w).1,
           (processWord env now (res, store) w).2) := rfl
    rw [hpair]
    exact ih _ _ _ (processWord_known_mono env now res store w x h)

theorem quick_learn_loop_promotes (env : LearnEnv) (now : ℚ) (ws : List String) :
    ∀ (res : LearnResults) (store : Store) (w : String), w ∈ ws →
    wordLearned env w = true → env.persist_ok w = true →
    hasDoc (quick_learn_loop env now (res, store) ws).2.known w = true := by
  induction ws with
  | nil => intro res store w hmem; simp at hmem
  | cons v ws ih =>
    intro res store w hmem hl hp
    simp only [quick_learn_loop]
    have hpair : processWord env now (res, store) v
        = ((processWord env now (res, store) v).1,
           (processWord env now (res, store) v).2) := rfl
    rw [hpair]
    rcases List.mem_cons.mp hmem with heq | htl
    · subst heq
      exact quick_learn_loop_known_mono env now ws _ _ _
        (processWord_promotes env now res store w hl hp)
    · exact ih _ _ _ htl hl hp

/-- C3 counterexample: when, for the second of three pending concepts,
web research returns an empty string and the Groq synthesis fallback
returns `None`, the failing concept contributes the plain string
`"beta: No explanation available"` to the cycle's error list — not a
structured entry of shape (word, errorKind, message); no structured
entry referencing the concept exists at all. -/
theorem c3_plain_error_counterexample :
    (quick_learn_unknowns none 0 c3_cex_env c3_store0).1.errors
      = [.plain "beta: No explanation available"]
    ∧ ∀ ty msg : String,
        ErrorEntry.structured "beta" ty msg ∉
          (quick_learn_unknowns none 0 c3_cex_env c3_store0).1.errors := by
  have h : (quick_learn_unknowns none 0 c3_cex_env c3_store0).1.errors
      = [.plain "beta: No explanation available"] := by decide
  refine ⟨h, ?_⟩
  intro ty msg hmem
  rw [h] at hmem
  simp at hmem

/-- C3 amended: the quick-learning batch loop isolates per-concept
failures.  For every environment: the cycle's error list is the
concatenation of each processed word's own error contribution (one
structured (word, type, message) entry when a call in its body raises,
one plain "no explanation available" string when research and synthesis
both come back empty, nothing when it succeeds) — so no failure aborts
the batch and every word of the batch (the first three pending words)
is processed; the learned count is the number of succeeding words; and
every succeeding word whose Firestore writes succeed is promoted into
the known collection (a persistence failure is swallowed inside
`add_word` and contributes no error entry).  In the claim's scenario —
three pending concepts with research raising for the second — concepts
one and three are promoted, exactly one structured error referencing
the second is recorded, and the second remains pending. -/
theorem c3_batch_isolation (env : LearnEnv) (now : ℚ) (store : Store) :
    (quick_learn_loop env now (startResults, store) (env.pending.take 3)).1.errors
      = ((env.pending.take 3).map (wordErrors env)).flatten
    ∧ (quick_learn_loop env now (startResults, store) (env.pending.take 3)).1.learned_count
      = ((env.pending.take 3).filter (fun w => wordLearned env w)).length
    ∧ (∀ w ∈ env.pending.take 3, wordLearned env w = true → env.persist_ok w = true →
        hasDoc (quick_learn_loop env now (startResults, store) (env.pending.take 3)).2.known w
          = true)
    ∧ (quick_learn_unknowns none 0 c3_env c3_store0).1.errors
      = [.structured "beta" "RuntimeError" "search backend exploded"]
    ∧ (quick_learn_unknowns none 0 c3_env c3_store0).1.learned_count = 2
    ∧ hasDoc (quick_learn_unknowns none 0 c3_env c3_store0).2.2.known "alpha" = true
    ∧ hasDoc (quick_learn_unknowns none 0 c3_env c3_store0).2.2.known "gamma" = true
    ∧ hasDoc (quick_learn_unknowns none 0 c3_env c3_store0).2.2.known "beta" = false
    ∧ hasDoc (quick_learn_unknowns none 0 c3_env c3_store0).2.2.unknown "beta" = true := by
  refine ⟨?_, ?_, ?_, by decide, by decide, by decide, by decide, by decide, by decide⟩
  · have h := quick_learn_loop_errors env now (env.pending.take 3) startResults store
    simpa [startResults] using h
  · have h := quick_learn_loop_learned_count env now (env.pending.take 3) startResults store
    simpa [startResults] using h
  · intro w hw hl hp
    exact quick_learn_loop_promotes env now (env.pending.take 3) startResults store w hw hl hp

/-- C3 witness: in the concrete three-concept scenario, the first
concept is promoted to known (instantiating the universally quantified
promotion conjunct). -/
theorem c3_batch_isolation_witness :
    hasDoc (quick_learn_loop c3_env 0 (startResults, c3_store0)
      (c3_env.pending.take 3)).2.known "alpha" = true :=
  (c3_batch_isolation c3_env 0 c3_store0).2.2.1 "alpha" (by decide) (by decide) (by decide)

/-- C4: with healthy services, the answer synthesizer treats the single
nearest stored concept as a confident match exactly when its distance
score (defaulting to 1.0 when absent) is strictly below the 0.6
threshold, returning the stored document verbatim with no side effect;
at distance 0.6 or greater, or when the query returns no concept, it
returns the fixed not-enough-information message and invokes
`detect_and_log_unknown_words` on the prompt. -/
theorem c4_similarity_threshold {δ : Type} (healthy : Bool)
    (query_similar : String → List TopConcept) (detect : String → δ → δ)
    (prompt : String) (st : δ) (hh : healthy = true) :
    (∀ top rest, query_similar prompt = top :: rest →
      (top.score.getD 1 < 0.6 →
        generate_response_from_knowledge healthy query_similar detect prompt st
          = (⟨some [top], top.document, prompt⟩, st))
      ∧ (0.6 ≤ top.score.getD 1 →
        generate_response_from_knowledge healthy query_similar detect prompt st
          = (⟨none, some unknown_message, prompt⟩, detect prompt st)))
    ∧ (query_similar prompt = [] →
      generate_response_from_knowledge healthy query_similar detect prompt st
        = (⟨none, some unknown_message, prompt⟩, detect prompt st)) := by
  subst hh
  constructor
  · intro top rest hq
    constructor
    · intro hlt
      simp [generate_response_from_knowledge, hq, hlt]
    · intro hge
      have hnlt : ¬ top.score.getD 1 < 0.6 := not_lt.mpr hge
      simp [generate_response_from_knowledge, hq, hnlt]
  · intro hq
    simp [generate_response_from_knowledge, hq]

/-- C4 witness: a stored concept at distance 0.59 is returned verbatim
with no side effect, while one at distance 0.60 takes the weak-match
branch, returning the fixed message and running unknown-concept
detection (the counter state moves from 0 to 1). -/
theorem c4_similarity_threshold_witness :
    generate_response_from_knowledge true c4_query59 (fun _ n => n + 1) "p" (0 : Nat)
      = (⟨some [⟨some (59 / 100), some "the stored document text"⟩],
          some "the stored document text", "p"⟩, 0)
    ∧ generate_response_from_knowledge true c4_query60 (fun _ n => n + 1) "p" (0 : Nat)
      = (⟨none, some unknown_message, "p"⟩, 1) :=
  ⟨((c4_similarity_threshold true c4_query59 (fun _ n => n + 1) "p" 0 rfl).1
      ⟨some (59 / 100), some "the stored document text"⟩ [] rfl).1 (by norm_num),
   ((c4_similarity_threshold true c4_query60 (fun _ n => n + 1) "p" 0 rfl).1
      ⟨some (60 / 100), some "the stored document text"⟩ [] rfl).2 (by norm_num)⟩

/-! ## Lemmas about the research fallback chain -/

theorem research_loop_sub (name : String) (r : PyResult String)
    (rest : List (String × PyResult String)) (s : String)
    (h : substantial r = some s) :
    research_loop ((name, r) :: rest) = (s, [name]) := by
  cases r with
  | exn ty msg => simp [substantial] at h
  | ok result =>
    simp only [substantial] at h
    split at h
    next hcond =>
      obtain rfl : result = s := Option.some.inj h
      simp [research_loop, hcond]
    next => exact absurd h (by simp)

theorem research_loop_none (name : String) (r : PyResult String)
    (rest : List (String × PyResult String))
    (h : substantial r = none) :
    research_loop ((name, r) :: rest)
      = ((research_loop rest).1, name :: (research_loop rest).2) := by
  cases r with
  | exn ty msg => simp [research_loop]
  | ok result =>
    simp only [substantial] at h
    split at h
    next => exact absurd h (by simp)
    next hcond => simp [research_loop, hcond]

/-- C7: `quick_research` tries DuckDuckGo, then Google CSE, then the
Groq LLM search, in that order, and returns the first substantial
result (truthy, stripped length strictly above 50) without attempting
the later backends; when no backend yields a substantial result it
returns the empty string after attempting all three.  It never raises:
it is a total function, each backend outcome — including a raised
exception — being folded into the ordinary control flow. -/
theorem c7_research_shortcircuit (env : ResearchEnv) (concept : String) :
    (∀ s, substantial (env.ddg ("what is " ++ concept)) = some s →
      quick_research env concept = (s, ["DuckDuckGo"]))
    ∧ (substantial (env.ddg ("what is " ++ concept)) = none →
       ∀ s, substantial (env.google ("what is " ++ concept)) = some s →
      quick_research env concept = (s, ["DuckDuckGo", "Google CSE"]))
    ∧ (substantial (env.ddg ("what is " ++ concept)) = none →
       substantial (env.google ("what is " ++ concept)) = none →
       ∀ s, substantial (env.groq ("what is " ++ concept)) = some s →
      quick_research env concept = (s, ["DuckDuckGo", "Google CSE", "Groq"]))
    ∧ (substantial (env.ddg ("what is " ++ concept)) = none →
       substantial (env.google ("what is " ++ concept)) = none →
       substantial (env.groq ("what is " ++ concept)) = none →
      quick_research env concept = ("", ["DuckDuckGo", "Google CSE", "Groq"])) := by
  refine ⟨?_, ?_, ?_, ?_⟩
  · intro s h
    simp only [quick_research]
    rw [research_loop_sub _ _ _ _ h]
  · intro h1 s h2
    simp only [quick_research]
    rw [research_loop_none _ _ _ h1, research_loop_sub _ _ _ _ h2]
  · intro h1 h2 s h3
    simp only [quick_research]
    rw [research_loop_none _ _ _ h1, research_loop_none _ _ _ h2,
      research_loop_sub _ _ _ _ h3]
  · intro h1 h2 h3
    simp only [quick_research]
    rw [research_loop_none _ _ _ h1, research_loop_none _ _ _ h2,
      research_loop_none _ _ _ h3]
    rfl

/-- C7 witness: DuckDuckGo returns an insubstantial result, Google CSE
raises, Groq returns a substantial one — all three are attempted in
order and Groq's result is returned. -/
theorem c7_research_shortcircuit_witness :
    quick_research c7_env "gradient descent"
      = ("a sufficiently long and substantial explanation of the concept at hand",
         ["DuckDuckGo", "Google CSE", "Groq"]) :=
  (c7_research_shortcircuit c7_env "gradient descent").2.2.1 (by decide) (by decide)
    "a sufficiently long and substantial explanation of the concept at hand" (by decide)

/-- C8: a recovery task with `max_attempts=3` performs at most 3
attempts: if every attempt fails to produce a truthy regenerated answer
different from the failed one, it ends with status "failed" after
exactly 3 attempts, each followed by a 5-second sleep; it stops early
with status "recovered", recording the improved answer, at the first
attempt that produces such an answer, with a 5-second sleep separating
the preceding failed attempts. -/
theorem c8_recovery_bounded_retries (env : RecoveryEnv) (q f : String) :
    ((∀ k, k < 3 → attemptResult env f k = none) →
      run_recovery_task env (schedule_recovery_task q f 3)
        = (⟨q, f, 3, 3, "failed", none⟩,
           [.attempt 1, .sleep 5, .attempt 2, .sleep 5, .attempt 3, .sleep 5]))
    ∧ (∀ s, attemptResult env f 0 = some s →
      run_recovery_task env (schedule_recovery_task q f 3)
        = (⟨q, f, 1, 3, "recovered", some s⟩, [.attempt 1]))
    ∧ (attemptResult env f 0 = none → ∀ s, attemptResult env f 1 = some s →
      run_recovery_task env (schedule_recovery_task q f 3)
        = (⟨q, f, 2, 3, "recovered", some s⟩, [.attempt 1, .sleep 5, .attempt 2]))
    ∧ (attemptResult env f 0 = none → attemptResult env f 1 = none →
       ∀ s, attemptResult env f 2 = some s →
      run_recovery_task env (schedule_recovery_task q f 3)
        = (⟨q, f, 3, 3, "recovered", some s⟩,
           [.attempt 1, .sleep 5, .attempt 2, .sleep 5, .attempt 3])) := by
  refine ⟨?_, ?_, ?_, ?_⟩
  · intro h
    have h0 := h 0 (by norm_num)
    have h1 := h 1 (by norm_num)
    have h2 := h 2 (by norm_num)
    simp [run_recovery_task, schedule_recovery_task, recovery_loop, h0, h1, h2]
  · intro s h0
    simp [run_recovery_task, schedule_recovery_task, recovery_loop, h0]
  · intro h0 s h1
    simp [run_recovery_task, schedule_recovery_task, recovery_loop, h0, h1]
  · intro h0 h1 s h2
    simp [run_recovery_task, schedule_recovery_task, recovery_loop, h0, h1, h2]

/-- C8 witness: with web research empty on every attempt, the task
terminates with status "failed" after exactly 3 attempts. -/
theorem c8_recovery_bounded_retries_witness :
    run_recovery_task c8_env (schedule_recovery_task "q" "bad answer" 3)
      = (⟨"q", "bad answer", 3, 3, "failed", none⟩,
         [.attempt 1, .sleep 5, .attempt 2, .sleep 5, .attempt 3, .sleep 5]) :=
  (c8_recovery_bounded_retries c8_env "q" "bad answer").1 (fun _ _ => rfl)

/-! ## Lemmas about the refinement task -/

theorem refinementStep_exited (st : RefState) (inp : RefInput)
    (h : st.exited = true) : refinementStep st inp = (st, []) := by
  simp [refinementStep, h]

theorem refinementStep_cleared (st : RefState) (inp : RefInput)
    (hex : st.exited = false) (hp : inp.present = false) :
    refinementStep st inp = ({ st with exited := true }, []) := by
  simp [refinementStep, hex, hp]

theorem refinementStep_notdue (st : RefState) (inp : RefInput)
    (hex : st.exited = false) (hp : inp.present = true)
    (hd : ¬ st.timer ≤ inp.now) : refinementStep st inp = (st, []) := by
  simp [refinementStep, hex, hp, hd]

theorem refinementStep_ran (st : RefState) (inp : RefInput) (b : Bool)
    (hex : st.exited = false) (hp : inp.present = true)
    (hd : st.timer ≤ inp.now) (hr : inp.refine = .ok b) :
    (refinementStep st inp).2 = [.ran inp.now]
    ∧ (refinementStep st inp).1.timer = inp.now + REFINEMENT_INTERVAL
    ∧ (refinementStep st inp).1.exited = false := by
  cases b <;> simp [refinementStep, hex, hp, hd, hr]

theorem refinementStep_err (st : RefState) (inp : RefInput) (ty msg : String)
    (hex : st.exited = false) (hp : inp.present = true)
    (hd : st.timer ≤ inp.now) (hr : inp.refine = .exn ty msg) :
    refinementStep st inp
      = ({ st with status := "error", exited := true }, [.errored inp.now]) := by
  simp [refinementStep, hex, hp, hd, hr]

theorem refinementRun_exited (inputs : List RefInput) :
    ∀ st : RefState, st.exited = true → refinementRun st inputs = (st, []) := by
  induction inputs with
  | nil => intro st h; rfl
  | cons inp rest ih =>
    intro st h
    simp only [refinementRun, refinementStep_exited st inp h]
    rw [ih st h]
    rfl

theorem refinementRun_spacing (inputs : List RefInput) :
    ∀ st : RefState,
    List.Chain' (fun a b : ℚ => a + 300 ≤ b)
      (ranTimes (refinementRun st inputs).2)
    ∧ ∀ t ∈ ranTimes (refinementRun st inputs).2, st.timer ≤ t := by
  induction inputs with
  | nil => intro st; simp [refinementRun, ranTimes]
  | cons inp rest ih =>
    intro st
    by_cases hex : st.exited = true
    · rw [refinementRun_exited (inp :: rest) st hex]
      simp [ranTimes]
    · have hex' : st.exited = false := by
        revert hex; cases st.exited <;> simp
      by_cases hpres : inp.present = true
      · by_cases hdue : st.timer ≤ inp.now
        · cases hr : inp.refine with
          | exn ty msg =>
            simp only [refinementRun,
              refinementStep_err st inp ty msg hex' hpres hdue hr]
            rw [refinementRun_exited rest _ (by simp)]
            simp [ranTimes]
          | ok b =>
            obtain ⟨hev, htm, _⟩ := refinementStep_ran st inp b hex' hpres hdue hr
            obtain ⟨ihc, iht⟩ := ih (refinementStep st inp).1
            simp only [refinementRun, hev]
            constructor
            · simp only [ranTimes, List.filterMap_append, List.filterMap_cons,
                List.filterMap_nil, List.nil_append, List.singleton_append]
              rw [List.chain'_cons']
              constructor
              · intro y hy
                have hmem : y ∈ ranTimes (refinementRun (refinementStep st inp).1 rest).2 :=
                  List.mem_of_mem_head? hy
                have := iht y hmem
                rw [htm] at this
                simpa [REFINEMENT_INTERVAL] using this
              · exact ihc
            · intro t ht
              simp only [ranTimes, List.filterMap_append, List.filterMap_cons,
                List.filterMap_nil, List.nil_append, List.singleton_append,
                List.mem_cons] at ht
              rcases ht with rfl | ht
              · exact hdue
              · have := iht t ht
                rw [htm] at this
                have h300 : (0 : ℚ) ≤ REFINEMENT_INTERVAL := by norm_num [REFINEMENT_INTERVAL]
                linarith
        · simp only [refinementRun, refinementStep_notdue st inp hex' hpres hdue]
          simpa [ranTimes] using ih st
      · have hpres' : inp.present = false := by
          revert hpres; cases inp.present <;> simp
        simp only [refinementRun, refinementStep_cleared st inp hex' hpres']
        rw [refinementRun_exited rest _ (by simp)]
        simp [ranTimes]

/-- C9: the per-topic refinement loop.  First conjunct (circuit
breaker): at a wakeup where the loop is live, the topic is still
registered, the refinement is due and `refine_knowledge_entry` raises,
the run ends immediately with the task status set to "error" — whatever
wakeups would have followed, no further refinement is ever performed
for the topic.  Second conjunct: in every run, consecutive refinement
runs are at least `REFINEMENT_INTERVAL = 300` seconds (5 minutes)
apart.  Third conjunct: at a live, registered, due wakeup whose
refinement returns normally, a refinement run is performed, the timer
is rescheduled 300 seconds ahead and the loop stays live — it keeps
re-running until cleared.  Fourth conjunct: clearing the topic
(removing it from the task table) terminates the loop with no further
refinement. -/
theorem c9_refinement_circuit_breaker :
    (∀ (st : RefState) (inp : RefInput) (rest : List RefInput) (ty msg : String),
      st.exited = false → inp.present = true → st.timer ≤ inp.now →
      inp.refine = .exn ty msg →
      refinementRun st (inp :: rest)
        = ({ st with status := "error", exited := true }, [.errored inp.now]))
    ∧ (∀ (st : RefState) (inputs : List RefInput),
      List.Chain' (fun a b : ℚ => a + 300 ≤ b)
        (ranTimes (refinementRun st inputs).2))
    ∧ (∀ (st : RefState) (inp : RefInput) (b : Bool),
      st.exited = false → inp.present = true → st.timer ≤ inp.now →
      inp.refine = .ok b →
      (refinementStep st inp).2 = [.ran inp.now]
      ∧ (refinementStep st inp).1.timer = inp.now + REFINEMENT_INTERVAL
      ∧ (refinementStep st inp).1.exited = false)
    ∧ (∀ (st : RefState) (inp : RefInput) (rest : List RefInput),
      st.exited = false → inp.present = false →
      refinementRun st (inp :: rest) = ({ st with exited := true }, [])) := by
  refine ⟨?_, ?_, ?_, ?_⟩
  · intro st inp rest ty msg hex hp hd hr
    simp only [refinementRun, refinementStep_err st inp ty msg hex hp hd hr]
    rw [refinementRun_exited rest _ (by simp)]
    rfl
  · intro st inputs
    exact (refinementRun_spacing inputs st).1
  · intro st inp b hex hp hd hr
    exact refinementStep_ran st inp b hex hp hd hr
  · intro st inp rest hex hp
    simp only [refinementRun, refinementStep_cleared st inp hex hp]
    rw [refinementRun_exited rest _ (by simp)]
    rfl

/-- C9 witness: a pending task whose first due wakeup raises ends with
status "error" and produces no refinement run, even though a later
wakeup would have been due again. -/
theorem c9_refinement_circuit_breaker_witness :
    refinementRun ⟨0, "pending", false⟩
      [⟨5, true, .exn "ValueError" "refinement exploded"⟩, ⟨400, true, .ok true⟩]
      = (⟨0, "error", true⟩, [.errored 5]) :=
  (c9_refinement_circuit_breaker).1 ⟨0, "pending", false⟩
    ⟨5, true, .exn "ValueError" "refinement exploded"⟩ [⟨400, true, .ok true⟩]
    "ValueError" "refinement exploded" rfl rfl (by norm_num) rfl

/-! ## Lemmas about concept extraction -/

theorem chunkCandidate_props (chunk : List SpacyToken) (c : String)
    (h : chunkCandidate chunk = some c) : 3 ≤ c.length ∧ c ∉ stopset := by
  simp only [chunkCandidate] at h
  split at h
  · exact absurd h (by simp)
  · split at h
    next hcond =>
      obtain rfl : _ = c := Option.some.inj h
      exact hcond
    next => exact absurd h (by simp)

theorem tokenCandidate_props (tok : SpacyToken) (c : String)
    (h : tokenCandidate tok = some c) : 3 ≤ c.length ∧ c ∉ stopset := by
  simp only [tokenCandidate] at h
  split at h
  · split at h
    next hcond =>
      obtain rfl : _ = c := Option.some.inj h
      exact hcond
    next => exact absurd h (by simp)
  · exact absurd h (by simp)

theorem fallbackCandidate_props (part : String) (c : String)
    (h : fallbackCandidate part = some c) :
    4 ≤ c.length ∧ c ∉ stopset
      ∧ c = ((pyLower part).data.filter Char.isAlpha).asString := by
  simp only [fallbackCandidate] at h
  split at h
  next hcond =>
    obtain rfl : _ = c := Option.some.inj h
    exact ⟨hcond.1, hcond.2, rfl⟩
  next => exact absurd h (by simp)

theorem mem_candidatesOf_props (nlp : Option SpacyDoc) (prompt : String)
    (c : String) (h : c ∈ candidatesOf nlp prompt) :
    3 ≤ c.length ∧ c ∉ stopset := by
  cases nlp with
  | some doc =>
    simp only [candidatesOf, rawCandidates] at h
    rcases List.mem_append.mp h with h | h
    · obtain ⟨chunk, _, hc⟩ := List.mem_filterMap.mp h
      exact chunkCandidate_props chunk c hc
    · obtain ⟨tok, _, hc⟩ := List.mem_filterMap.mp h
      exact tokenCandidate_props tok c hc
  | none =>
    simp only [candidatesOf, fallbackCandidates] at h
    obtain ⟨part, _, hc⟩ := List.mem_filterMap.mp h
    obtain ⟨h4, hns, _⟩ := fallbackCandidate_props part c hc
    exact ⟨by omega, hns⟩

/-- C6: concept extraction deduplicates phrases against their
constituent tokens — whenever a multi-word phrase is retained, none of
its whitespace-split tokens is retained.  Every retained candidate is
at least 3 characters long and outside the static stop-list; on the
spaCy path every candidate is a lemmatized lowercased noun-chunk phrase
or single noun/proper-noun lemma (as computed by `chunkCandidate` /
`tokenCandidate`); when the linguistic backend is unavailable, every
candidate comes from the whitespace tokenizer with the length-of-at-
least-4 filter and the same stop-list. -/
theorem c6_extraction_dedup (nlp : Option SpacyDoc) (prompt : String) :
    (∀ p ∈ detect_and_log_unknown_words nlp prompt, hasSpace p = true →
      ∀ t ∈ pySplitWs p, t ∉ detect_and_log_unknown_words nlp prompt)
    ∧ (∀ c ∈ detect_and_log_unknown_words nlp prompt, 3 ≤ c.length ∧ c ∉ stopset)
    ∧ (∀ doc, nlp = some doc → ∀ c ∈ detect_and_log_unknown_words nlp prompt,
        (∃ chunk ∈ doc.noun_chunks, chunkCandidate chunk = some c)
        ∨ (∃ tok ∈ doc.tokens, tokenCandidate tok = some c))
    ∧ (nlp = none → ∀ c ∈ detect_and_log_unknown_words nlp prompt,
        4 ≤ c.length ∧ c ∉ stopset
        ∧ ∃ part ∈ pySplitWs prompt, fallbackCandidate part = some c) := by
  refine ⟨?_, ?_, ?_, ?_⟩
  · intro p hp hsp t ht hmem
    have hpc : p ∈ candidatesOf nlp prompt :=
      (List.mem_filter.mp hp).1
    have htpred := (List.mem_filter.mp hmem).2
    simp only [Bool.not_eq_eq_eq_not, Bool.not_true, List.any_eq_false] at htpred
    have hnp := htpred p hpc
    simp only [hsp, Bool.true_and] at hnp
    simp at hnp
    exact hnp ht
  · intro c hc
    exact mem_candidatesOf_props nlp prompt c (List.mem_filter.mp hc).1
  · intro doc hdoc c hc
    subst hdoc
    have hcc : c ∈ candidatesOf (some doc) prompt := (List.mem_filter.mp hc).1
    simp only [candidatesOf, rawCandidates] at hcc
    rcases List.mem_append.mp hcc with h | h
    · exact Or.inl (List.mem_filterMap.mp h)
    · exact Or.inr (List.mem_filterMap.mp h)
  · intro hdoc c hc
    subst hdoc
    have hcc : c ∈ candidatesOf none prompt := (List.mem_filter.mp hc).1
    simp only [candidatesOf, fallbackCandidates] at hcc
    obtain ⟨part, hpart, hfc⟩ := List.mem_filterMap.mp hcc
    obtain ⟨h4, hns, _⟩ := fallbackCandidate_props part c hfc
    exact ⟨h4, hns, part, hpart, hfc⟩

/-- C6 witness: for the prompt "the neural network model" (as parsed by
the oracle spaCy document), the retained phrase is present but its
constituent tokens are all absent from the candidate set. -/
theorem c6_extraction_dedup_witness :
    "neural network model"
      ∈ detect_and_log_unknown_words (some c6_doc) "the neural network model"
    ∧ "neural" ∉ detect_and_log_unknown_words (some c6_doc) "the neural network model"
    ∧ "network" ∉ detect_and_log_unknown_words (some c6_doc) "the neural network model"
    ∧ "model" ∉ detect_and_log_unknown_words (some c6_doc) "the neural network model" := by
  refine ⟨by decide, ?_, ?_, ?_⟩
  · exact (c6_extraction_dedup (some c6_doc) "the neural network model").1
      "neural network model" (by decide) (by decide) "neural" (by decide)
  · exact (c6_extraction_dedup (some c6_doc) "the neural network model").1
      "neural network model" (by decide) (by decide) "network" (by decide)
  · exact (c6_extraction_dedup (some c6_doc) "the neural network model").1
      "neural network model" (by decide) (by decide) "model" (by decide)

/-- C10: `groq_generate_text` never raises (it is a total function) and
returns a fixed non-empty sentence on each failure mode: the literal
"Groq provider is not available." whenever the Groq client is
unconfigured, and "I am having trouble accessing my knowledge base at
the moment." when the API call raises.  Both fallback sentences are
truthy, so a caller testing only truthiness cannot detect the failure:
in a quick-learning run with the Groq client unconfigured, the
categorization fallback sentence is persisted verbatim as the concept's
stored category. -/
theorem c10_groq_fallback_sentences :
    (∀ api : PyResult (Option String),
      groq_generate_text false api = some "Groq provider is not available.")
    ∧ (∀ ty msg : String,
      groq_generate_text true (.exn ty msg)
        = some "I am having trouble accessing my knowledge base at the moment.")
    ∧ pyTruthy (groq_generate_text false (.ok none)) = true
    ∧ pyTruthy (groq_generate_text true (.exn "APIError" "boom")) = true
    ∧ getDoc (quick_learn_unknowns none 0 c10_env emptyStore).2.2.known "gradient"
      = some ⟨"an explanation of gradients", 0, some "Groq provider is not available."⟩ := by
  refine ⟨fun api => rfl, fun ty msg => rfl, by decide, by decide, by decide⟩

end MLSpec
